import Mathlib

/-!
# Verification of the task model in `src/core/models.py`

Shallow embedding of the `Task` and `TaskManager` classes.  Python
objects are mutable and compared by identity, so each task is named by
a numeric id (Python's `id(self)`) and the mutable heap is a total
store `Nat → Task` mapping each id to the current field values of that
object.  `datetime.now()` is modelled by an abstract tick passed to
each operation that reads the clock.  Python's `list.remove` removes
the first occurrence only, matching `List.erase`; `list.append` is
`· ++ [·]`; the slice `xs[1:3]` is `(xs.drop 1).take 2`.
-/

namespace PersAssistant

/-- Field values of a Python `Task` object (`models.py`, class `Task`).
The object's identity (`self.id = id(self)`) is the store key, so it is
not repeated as a field; `dependencies` holds the ids of the referenced
task objects. -/
structure Task where
  title : String
  description : String
  estimated_time : Nat
  dependencies : List Nat
  created_at : Nat
  completed : Bool
  start_time : Option Nat
  end_time : Option Nat
deriving Repr, DecidableEq

/-- The heap: every task id resolves to the current state of that object. -/
abbrev Store := Nat → Task

/-- Mutate the object at id `i` in place. -/
def updateStore (s : Store) (i : Nat) (f : Task → Task) : Store :=
  fun j => if j = i then f (s j) else s j

/-- Method `Task.add_dependency`: `if task not in self.dependencies:
self.dependencies.append(task)`. -/
def Task.add_dependency (t : Task) (d : Nat) : Task :=
  if d ∈ t.dependencies then t
  else { t with dependencies := t.dependencies ++ [d] }

/-- Method `Task.remove_dependency`: `if task in self.dependencies:
self.dependencies.remove(task)` (removes the first occurrence). -/
def Task.remove_dependency (t : Task) (d : Nat) : Task :=
  if d ∈ t.dependencies then { t with dependencies := t.dependencies.erase d }
  else t

/-- Method `Task.can_start`: `all(dep.completed for dep in self.dependencies)`. -/
def Task.can_start (t : Task) (s : Store) : Bool :=
  t.dependencies.all fun d => (s d).completed

/-- Method `Task.mark_completed`: sets `completed = True` and `end_time = now`. -/
def Task.mark_completed (t : Task) (now : Nat) : Task :=
  { t with completed := true, end_time := some now }

/-- Method `Task.start_task`: `if self.can_start() and not self.completed:
self.start_time = datetime.now()`. -/
def Task.start_task (t : Task) (s : Store) (now : Nat) : Task :=
  if t.can_start s && !t.completed then { t with start_time := some now }
  else t

/-- The `TaskManager` object's own fields: the list of task ids in
insertion order and the optional current task. -/
structure TaskManager where
  tasks : List Nat
  current_task : Option Nat
deriving Repr, DecidableEq

/-- A manager together with the heap it acts on. -/
structure SysState where
  store : Store
  manager : TaskManager

/-- Method `TaskManager.add_task`: `self.tasks.append(task)`. -/
def TaskManager.add_task (st : SysState) (t : Nat) : SysState :=
  { st with manager := { st.manager with tasks := st.manager.tasks ++ [t] } }

/-- The loop body of `TaskManager.remove_task`:
`for t in self.tasks: t.remove_dependency(task)` — one
`remove_dependency` call per list entry, in order. -/
def removeDepLoop (s : Store) (ids : List Nat) (d : Nat) : Store :=
  ids.foldl (fun acc j => updateStore acc j (fun t => t.remove_dependency d)) s

/-- Method `TaskManager.remove_task`: if present, remove the first occurrence
from `tasks`, then run the dependency-removal loop over the remaining
entries. -/
def TaskManager.remove_task (st : SysState) (t : Nat) : SysState :=
  if t ∈ st.manager.tasks then
    { store := removeDepLoop st.store (st.manager.tasks.erase t) t,
      manager := { st.manager with tasks := st.manager.tasks.erase t } }
  else st

/-- Method `TaskManager.get_ready_tasks`: tasks that can start, are not
completed and are not the current task, in list order. -/
def TaskManager.get_ready_tasks (st : SysState) : List Nat :=
  st.manager.tasks.filter fun t =>
    (st.store t).can_start st.store && !(st.store t).completed &&
      decide (some t ≠ st.manager.current_task)

/-- Method `TaskManager.get_completed_tasks`. -/
def TaskManager.get_completed_tasks (st : SysState) : List Nat :=
  st.manager.tasks.filter fun t => (st.store t).completed

/-- Method `TaskManager.get_pending_tasks`. -/
def TaskManager.get_pending_tasks (st : SysState) : List Nat :=
  st.manager.tasks.filter fun t => !(st.store t).completed

/-- Method `TaskManager.start_task`: `if task.can_start(): self.current_task =
task; task.start_task(); return True` else `return False`.  Returns the
new state and the boolean result. -/
def TaskManager.start_task (st : SysState) (t : Nat) (now : Nat) :
    SysState × Bool :=
  if (st.store t).can_start st.store then
    ({ store := updateStore st.store t (fun td => td.start_task st.store now),
       manager := { st.manager with current_task := some t } }, true)
  else (st, false)

/-- Method `TaskManager.complete_current_task`. -/
def TaskManager.complete_current_task (st : SysState) (now : Nat) : SysState :=
  match st.manager.current_task with
  | some t =>
      { store := updateStore st.store t (fun td => td.mark_completed now),
        manager := { st.manager with current_task := none } }
  | none => st

/-- The dict returned by `TaskManager.get_timeline_data`. -/
structure TimelineData where
  current_task : Option Nat
  ready_tasks : List Nat
  parallel_tasks : List Nat
  upcoming_tasks : List Nat
deriving Repr, DecidableEq

/-- Method `TaskManager.get_timeline_data`: builds the dict with
`parallel_tasks = []`, then if `len(ready_tasks) > 1` overwrites it
with `ready_tasks[1:3]`. -/
def TaskManager.get_timeline_data (st : SysState) : TimelineData :=
  let base : TimelineData :=
    { current_task := st.manager.current_task,
      ready_tasks := TaskManager.get_ready_tasks st,
      parallel_tasks := [],
      upcoming_tasks := [] }
  let ready_tasks := TaskManager.get_ready_tasks st
  if ready_tasks.length > 1 then
    { base with parallel_tasks := (ready_tasks.drop 1).take 2 }
  else base

/-- A freshly constructed task with no dependencies (`Task("t")`). -/
def emptyTask : Task :=
  { title := "t", description := "", estimated_time := 0,
    dependencies := [], created_at := 0, completed := false,
    start_time := none, end_time := none }

/-- A heap where every id resolves to a fresh independent task. -/
def store0 : Store := fun _ => emptyTask

/-- C2: the method `can_start()` returns true iff every task in the dependency
list has `completed = true`; in particular a task with an empty
dependency list can always start. -/
theorem C2_can_start_iff (s : Store) (t : Task) :
    (t.can_start s = true ↔ ∀ d ∈ t.dependencies, (s d).completed = true) ∧
    (t.dependencies = [] → t.can_start s = true) := by
  constructor
  · simp [Task.can_start, List.all_eq_true]
  · intro h
    simp [Task.can_start, h]

/-- C2 witness: a fresh dependency-free task can start. -/
theorem C2_can_start_iff_witness : emptyTask.can_start store0 = true :=
  (C2_can_start_iff store0 emptyTask).2 rfl

/-- C3: the task-level start sets `start_time := now` exactly when
`can_start()` holds and `completed` is false, and otherwise returns the
task unchanged; once `mark_completed` has run, a subsequent start never
changes `start_time`. -/
theorem C3_start_task_sets_iff (s : Store) (t : Task) (now : Nat) :
    (t.can_start s = true ∧ t.completed = false →
      t.start_task s now = { t with start_time := some now }) ∧
    (¬(t.can_start s = true ∧ t.completed = false) →
      t.start_task s now = t) ∧
    (∀ m : Nat,
      ((t.mark_completed m).start_task s now).start_time =
        (t.mark_completed m).start_time) := by
  refine ⟨?_, ?_, ?_⟩
  · rintro ⟨h1, h2⟩
    simp [Task.start_task, h1, h2]
  · intro h
    rcases Decidable.em (t.can_start s = true) with hc | hc
    · have hcomp : t.completed = true := by
        rcases Bool.eq_false_or_eq_true t.completed with h' | h'
        · exact h'
        · exact absurd ⟨hc, h'⟩ h
      simp [Task.start_task, hcomp]
    · simp [Task.start_task, Bool.eq_false_iff.mpr hc]
  · intro m
    simp [Task.start_task, Task.mark_completed]

/-- C3 witness: a fresh task starts (its `start_time` becomes the
clock value), and after completion a start leaves `start_time` alone. -/
theorem C3_start_task_sets_iff_witness :
    emptyTask.start_task store0 7 = { emptyTask with start_time := some 7 } ∧
    ((emptyTask.mark_completed 3).start_task store0 7).start_time =
      (emptyTask.mark_completed 3).start_time :=
  ⟨(C3_start_task_sets_iff store0 emptyTask 7).1 ⟨rfl, rfl⟩,
   (C3_start_task_sets_iff store0 emptyTask 7).2.2 3⟩

/-- C4: the method `add_dependency` is idempotent, and it preserves the invariant
that no id occurs twice in the dependency list. -/
theorem C4_add_dependency_idempotent (t : Task) (d : Nat) :
    (t.add_dependency d).add_dependency d = t.add_dependency d ∧
    (t.dependencies.Nodup → ((t.add_dependency d).dependencies).Nodup) := by
  constructor
  · by_cases h : d ∈ t.dependencies
    · simp [Task.add_dependency, h]
    · have hmem : d ∈ (t.add_dependency d).dependencies := by
        simp [Task.add_dependency, h]
      rw [Task.add_dependency, if_pos hmem]
  · intro hnd
    by_cases h : d ∈ t.dependencies
    · simpa [Task.add_dependency, h] using hnd
    · simp only [Task.add_dependency, if_neg h]
      exact List.Nodup.append hnd (List.nodup_singleton d)
        (by simpa using fun hd => h hd)

/-- C4 witness: adding dependency `5` twice to a fresh task equals
adding it once, and the resulting list has no duplicates. -/
theorem C4_add_dependency_idempotent_witness :
    (emptyTask.add_dependency 5).add_dependency 5 = emptyTask.add_dependency 5 ∧
    ((emptyTask.add_dependency 5).dependencies).Nodup :=
  ⟨(C4_add_dependency_idempotent emptyTask 5).1,
   (C4_add_dependency_idempotent emptyTask 5).2 List.nodup_nil⟩

/-- C5 counterexample: when `d` is already a dependency, the add is a
no-op and the remove deletes it, so add-then-remove does not restore
the pre-add list.  Concretely, starting from a task whose dependency
list is `[0]`, the round trip ends with `[]`. -/
theorem C5_counterexample :
    ((emptyTask.add_dependency 0).add_dependency 0).remove_dependency 0 ≠
      emptyTask.add_dependency 0 := by
  decide

/-- C5 (amended): if `d` is not already among `t`'s dependencies, then
`add_dependency d` followed by `remove_dependency d` restores the task
exactly. -/
theorem C5_add_remove_roundtrip (t : Task) (d : Nat)
    (h : d ∉ t.dependencies) :
    (t.add_dependency d).remove_dependency d = t := by
  rw [Task.add_dependency, if_neg h]
  rw [Task.remove_dependency]
  simp only [List.mem_append, List.mem_singleton, or_true, if_true]
  rw [List.erase_append_right _ h]
  simp

/-- C5 witness: the round trip on a fresh task with `d = 4`. -/
theorem C5_add_remove_roundtrip_witness :
    (emptyTask.add_dependency 4).remove_dependency 4 = emptyTask :=
  C5_add_remove_roundtrip emptyTask 4 (by decide)

/-- A task that has already been marked completed. -/
def completedTask : Task := { emptyTask with completed := true }

/-- A task depending on the task with id 0. -/
def taskDep0 : Task := { emptyTask with dependencies := [0] }

/-- A task depending on the task with id 1. -/
def taskDep1 : Task := { emptyTask with dependencies := [1] }

/-- A manager holding one already-completed, dependency-free task. -/
def stCompleted : SysState :=
  { store := fun _ => completedTask,
    manager := { tasks := [0], current_task := none } }

/-- C1 counterexample: on a manager holding a completed dependency-free
task, `start_task` returns true and changes `current_task`, instead of
returning false and leaving the state unchanged. -/
theorem C1_counterexample :
    (TaskManager.start_task stCompleted 0 5).2 = true ∧
    (TaskManager.start_task stCompleted 0 5).1.manager.current_task ≠
      stCompleted.manager.current_task := by
  decide

/-- C1 (amended): for a completed task `t`, the manager's `start_task`
returns false and leaves the state unchanged only when `t.can_start()`
is false; when `t.can_start()` is true the completed flag is not
checked: the call returns true and makes `t` current (the task store
itself is unchanged, because the task-level start refuses to set
`start_time` on a completed task). -/
theorem C1_start_completed_task (st : SysState) (t now : Nat)
    (hc : (st.store t).completed = true) :
    ((st.store t).can_start st.store = false →
      TaskManager.start_task st t now = (st, false)) ∧
    ((st.store t).can_start st.store = true →
      (TaskManager.start_task st t now).2 = true ∧
      (TaskManager.start_task st t now).1.manager.current_task = some t ∧
      (TaskManager.start_task st t now).1.manager.tasks = st.manager.tasks ∧
      ∀ j, (TaskManager.start_task st t now).1.store j = st.store j) := by
  constructor
  · intro hcs
    rw [TaskManager.start_task, if_neg (by simp [hcs])]
  · intro hcs
    rw [TaskManager.start_task, if_pos hcs]
    refine ⟨rfl, rfl, rfl, ?_⟩
    intro j
    simp only [updateStore]
    by_cases hj : j = t
    · subst hj
      simp [Task.start_task, hc]
    · simp [hj]

/-- C1 witness: the amended behaviour at the concrete completed task. -/
theorem C1_start_completed_task_witness :
    (TaskManager.start_task stCompleted 0 5).2 = true ∧
    (TaskManager.start_task stCompleted 0 5).1.manager.current_task = some 0 ∧
    (TaskManager.start_task stCompleted 0 5).1.manager.tasks =
      stCompleted.manager.tasks ∧
    ∀ j, (TaskManager.start_task stCompleted 0 5).1.store j =
      stCompleted.store j :=
  (C1_start_completed_task stCompleted 0 5 rfl).2 rfl

/-- C7: the method `get_ready_tasks` is a sublist of the task collection (so it
follows insertion order), and it contains exactly the ids that are in
the collection, can start, are not completed, and are not the current
task. -/
theorem C7_get_ready_tasks (st : SysState) :
    List.Sublist (TaskManager.get_ready_tasks st) st.manager.tasks ∧
    ∀ t, t ∈ TaskManager.get_ready_tasks st ↔
      t ∈ st.manager.tasks ∧ (st.store t).can_start st.store = true ∧
        (st.store t).completed = false ∧ some t ≠ st.manager.current_task := by
  constructor
  · exact List.filter_sublist _
  · intro t
    simp [TaskManager.get_ready_tasks, List.mem_filter, and_assoc]

/-- A manager holding a completed task 0, a fresh task 1 and a task 2
blocked on task 1. -/
def stMixed : SysState :=
  { store := fun j => if j = 0 then completedTask
      else if j = 2 then taskDep1 else emptyTask,
    manager := { tasks := [0, 1, 2], current_task := none } }

/-- C7 witness: in the mixed state exactly task 1 is ready. -/
theorem C7_get_ready_tasks_witness :
    1 ∈ TaskManager.get_ready_tasks stMixed :=
  ((C7_get_ready_tasks stMixed).2 1).mpr ⟨by decide, rfl, rfl, by decide⟩

/-- A manager holding five independent fresh tasks and no current task. -/
def stFive : SysState :=
  { store := store0,
    manager := { tasks := [0, 1, 2, 3, 4], current_task := none } }

/-- A manager holding no tasks. -/
def stNone : SysState :=
  { store := store0, manager := { tasks := [], current_task := none } }

/-- C8: the `parallel_tasks` slice of the timeline equals the ready
list with its first element skipped, truncated to two; when at most one
task is ready the slice is empty; and on five independent tasks with no
current task the ready list has length 5 and the slice length 2. -/
theorem C8_parallel_tasks (st : SysState) :
    (TaskManager.get_timeline_data st).parallel_tasks =
      ((TaskManager.get_ready_tasks st).drop 1).take 2 ∧
    ((TaskManager.get_ready_tasks st).length ≤ 1 →
      (TaskManager.get_timeline_data st).parallel_tasks = []) ∧
    (TaskManager.get_ready_tasks stFive).length = 5 ∧
    (TaskManager.get_timeline_data stFive).parallel_tasks.length = 2 := by
  have hmain : (TaskManager.get_timeline_data st).parallel_tasks =
      ((TaskManager.get_ready_tasks st).drop 1).take 2 := by
    rw [TaskManager.get_timeline_data]
    by_cases h : (TaskManager.get_ready_tasks st).length > 1
    · simp only [h, if_pos]
    · simp only [h, if_neg, if_false]
      have hd : (TaskManager.get_ready_tasks st).drop 1 = [] :=
        List.drop_eq_nil_of_le (by omega)
      rw [hd, List.take_nil]
  refine ⟨hmain, ?_, by decide, by decide⟩
  intro hlen
  rw [hmain, List.drop_eq_nil_of_le hlen, List.take_nil]

/-- C8 witness: on the empty manager the parallel slice is empty. -/
theorem C8_parallel_tasks_witness :
    (TaskManager.get_timeline_data stNone).parallel_tasks = [] :=
  (C8_parallel_tasks stNone).2.1 (by decide)

/-- C9: whenever the manager's `start_task` returns true, the current
task is the started task and the started task is no longer in the
ready list. -/
theorem C9_start_task_invariant (st : SysState) (t now : Nat)
    (h : (TaskManager.start_task st t now).2 = true) :
    (TaskManager.start_task st t now).1.manager.current_task = some t ∧
    t ∉ TaskManager.get_ready_tasks (TaskManager.start_task st t now).1 := by
  have hcs : (st.store t).can_start st.store = true := by
    by_contra hc
    rw [TaskManager.start_task, if_neg hc] at h
    exact Bool.false_ne_true h
  rw [TaskManager.start_task, if_pos hcs]
  refine ⟨rfl, ?_⟩
  intro hmem
  have h2 := (List.mem_filter.mp hmem).2
  simp at h2

/-- A manager holding a single fresh startable task. -/
def stReady : SysState :=
  { store := store0, manager := { tasks := [0], current_task := none } }

/-- C9 witness: starting the fresh task succeeds, it becomes current
and leaves the ready list. -/
theorem C9_start_task_invariant_witness :
    (TaskManager.start_task stReady 0 5).1.manager.current_task = some 0 ∧
    0 ∉ TaskManager.get_ready_tasks (TaskManager.start_task stReady 0 5).1 :=
  C9_start_task_invariant stReady 0 5 rfl

/-- C10: the manager's `start_task` performs no membership check: a
task never added to the collection but able to start is started, made
current, and still appears in none of the ready, completed or pending
lists. -/
theorem C10_start_without_membership (st : SysState) (t now : Nat)
    (hmem : t ∉ st.manager.tasks)
    (hcs : (st.store t).can_start st.store = true) :
    (TaskManager.start_task st t now).2 = true ∧
    (TaskManager.start_task st t now).1.manager.current_task = some t ∧
    t ∉ TaskManager.get_ready_tasks (TaskManager.start_task st t now).1 ∧
    t ∉ TaskManager.get_completed_tasks (TaskManager.start_task st t now).1 ∧
    t ∉ TaskManager.get_pending_tasks (TaskManager.start_task st t now).1 := by
  rw [TaskManager.start_task, if_pos hcs]
  refine ⟨rfl, rfl, ?_, ?_, ?_⟩ <;>
    exact fun hm => hmem (List.mem_of_mem_filter hm)

/-- C10 witness: on the empty manager, the foreign task 0 starts,
becomes current and is in none of the three lists. -/
theorem C10_start_without_membership_witness :
    (TaskManager.start_task stNone 0 5).2 = true ∧
    (TaskManager.start_task stNone 0 5).1.manager.current_task = some 0 ∧
    0 ∉ TaskManager.get_ready_tasks (TaskManager.start_task stNone 0 5).1 ∧
    0 ∉ TaskManager.get_completed_tasks (TaskManager.start_task stNone 0 5).1 ∧
    0 ∉ TaskManager.get_pending_tasks (TaskManager.start_task stNone 0 5).1 :=
  C10_start_without_membership stNone 0 5 (by decide) rfl

/-- Unfold one step of the dependency-removal loop. -/
theorem removeDepLoop_cons (s : Store) (i : Nat) (rest : List Nat) (d : Nat) :
    removeDepLoop s (i :: rest) d =
      removeDepLoop (updateStore s i (fun t => t.remove_dependency d)) rest d :=
  rfl

/-- Ids not visited by the dependency-removal loop keep their task. -/
theorem removeDepLoop_not_visited (ids : List Nat) (s : Store) (d j : Nat)
    (h : j ∉ ids) : removeDepLoop s ids d j = s j := by
  induction ids generalizing s with
  | nil => rfl
  | cons i rest ih =>
      rw [removeDepLoop_cons]
      have hji : j ≠ i := fun he => h (he ▸ List.mem_cons_self i rest)
      have hjr : j ∉ rest := fun hr => h (List.mem_cons_of_mem i hr)
      rw [ih _ hjr, updateStore, if_neg hji]

/-- One `remove_dependency` call never increases the count of `d`. -/
theorem remove_dependency_count_le (t : Task) (d : Nat) :
    ((t.remove_dependency d).dependencies).count d ≤ t.dependencies.count d := by
  rw [Task.remove_dependency]
  by_cases h : d ∈ t.dependencies
  · rw [if_pos h]
    exact (List.erase_sublist d t.dependencies).count_le d
  · rw [if_neg h]

/-- If `d` occurs at most once, one `remove_dependency d` call removes
it completely. -/
theorem remove_dependency_not_mem (t : Task) (d : Nat)
    (h : (t.dependencies).count d ≤ 1) :
    d ∉ (t.remove_dependency d).dependencies := by
  rw [Task.remove_dependency]
  by_cases hm : d ∈ t.dependencies
  · rw [if_pos hm]
    intro hmem
    have hmem' : d ∈ t.dependencies.erase d := hmem
    have h1 := List.count_erase_self d t.dependencies
    have h2 := List.count_pos_iff.mpr hmem'
    have h3 := List.count_pos_iff.mpr hm
    omega
  · rw [if_neg hm]
    exact hm

/-- Every id the loop visits ends with `d` gone from its dependencies,
provided `d` occurred at most once there to begin with. -/
theorem removeDepLoop_removes (ids : List Nat) (s : Store) (d j : Nat)
    (hj : j ∈ ids) (hc : ((s j).dependencies).count d ≤ 1) :
    d ∉ ((removeDepLoop s ids d) j).dependencies := by
  induction ids generalizing s with
  | nil => cases hj
  | cons i rest ih =>
      rw [removeDepLoop_cons]
      by_cases hjr : j ∈ rest
      · refine ih _ hjr ?_
        rw [updateStore]
        by_cases hji : j = i
        · rw [if_pos hji]
          calc (((s j).remove_dependency d).dependencies).count d
              ≤ ((s j).dependencies).count d := remove_dependency_count_le _ d
            _ ≤ 1 := hc
        · rw [if_neg hji]
          exact hc
      · have hji : j = i := by
          rcases List.mem_cons.mp hj with h | h
          · exact h
          · exact absurd h hjr
        subst hji
        rw [removeDepLoop_not_visited rest _ d j hjr, updateStore, if_pos rfl]
        exact remove_dependency_not_mem _ d hc

/-- A manager that holds the same task object twice (nothing in
`add_task` prevents it). -/
def stDouble : SysState :=
  { store := store0, manager := { tasks := [0, 0], current_task := none } }

/-- C6 counterexample: when a task was added twice, `remove_task`
deletes only the first occurrence, so the task is still in the
collection afterwards. -/
theorem C6_counterexample :
    0 ∈ (TaskManager.remove_task stDouble 0).manager.tasks := by
  decide

/-- C6 (amended): provided `t` occurs at most once in the task
collection and at most once in each held task's dependency list, after
`remove_task t` the collection no longer contains `t` and no remaining
task's dependency list contains `t`; if `t` was not in the collection,
the state is unchanged. -/
theorem C6_remove_task (st : SysState) (t : Nat)
    (hcount : (st.manager.tasks).count t ≤ 1)
    (hdeps : ∀ j ∈ st.manager.tasks, ((st.store j).dependencies).count t ≤ 1) :
    (t ∈ st.manager.tasks →
      t ∉ (TaskManager.remove_task st t).manager.tasks ∧
      ∀ j ∈ (TaskManager.remove_task st t).manager.tasks,
        t ∉ ((TaskManager.remove_task st t).store j).dependencies) ∧
    (t ∉ st.manager.tasks → TaskManager.remove_task st t = st) := by
  constructor
  · intro hmem
    rw [TaskManager.remove_task, if_pos hmem]
    constructor
    · intro hm
      have hm' : t ∈ st.manager.tasks.erase t := hm
      have h1 := List.count_erase_self t st.manager.tasks
      have h2 := List.count_pos_iff.mpr hm'
      have h3 := List.count_pos_iff.mpr hmem
      omega
    · intro j hj
      exact removeDepLoop_removes _ _ t j hj
        (hdeps j (List.mem_of_mem_erase hj))
  · intro hmem
    rw [TaskManager.remove_task, if_neg hmem]

/-- A manager holding task 0 and a task 1 that depends on it. -/
def stDep : SysState :=
  { store := fun j => if j = 1 then taskDep0 else emptyTask,
    manager := { tasks := [0, 1], current_task := none } }

/-- C6 witness: removing task 0 leaves the collection without it and
strips it from task 1's dependencies. -/
theorem C6_remove_task_witness :
    0 ∉ (TaskManager.remove_task stDep 0).manager.tasks ∧
    ∀ j ∈ (TaskManager.remove_task stDep 0).manager.tasks,
      0 ∉ ((TaskManager.remove_task stDep 0).store j).dependencies :=
  (C6_remove_task stDep 0 (by decide) (by decide)).1 (by decide)

end PersAssistant
